import Mathlib

/-!
Shallow embedding of
`src/External/X11TouchMultiWindow/X11TouchMultiWindowPointerSystem.cpp`
(class `PointerSystem` and the exported C interface).

X11 `Window` identifiers are modelled as `Nat`.  The `std::map<Window,
PointerHandler*>` registry is modelled as a key-sorted association list with
unique keys, with `find` / `insert` / `erase` mirroring the `std::map`
operations the source uses.  Interaction with the X server (opening the
display, querying the extension, the event queue, the window tree) is
modelled by explicit data passed to the functions, so every definition is
executable.
-/

/-- Result codes used by the source (declared in
`X11TouchMultiWindowCommon.h`, which is not part of the two source files;
the constructor names are the ones the source spells out). -/
inductive Result where
  | OK
  | ERROR_NULL_POINTER
  | ERROR_API
  | ERROR_DUPLICATE_ITEM
  deriving DecidableEq, Repr

/-- Message severities passed to the message callback. -/
inductive MessageType where
  | ERROR
  | WARNING
  deriving DecidableEq, Repr

/-- Model of a `PointerHandler*`: the source only reads `getWindow()` from a
handler, and stores the pointer callback it was constructed with. -/
structure Handler where
  window : Nat
  cb : Nat
  deriving DecidableEq, Repr

/-- `std::map<Window, PointerHandler*>` as a key-sorted association list. -/
abbrev PointerHandlerMap := List (Nat × Handler)

/-- `mPointerHandlers.find(window)`. -/
def mapFind : PointerHandlerMap → Nat → Option Handler
  | [], _ => none
  | (k, v) :: rest, w => if k = w then some v else mapFind rest w

/-- `mPointerHandlers.insert(std::make_pair(window, handler))`: ordered
insertion; like `std::map::insert` it does not overwrite an existing key. -/
def mapInsert : PointerHandlerMap → Nat → Handler → PointerHandlerMap
  | [], w, h => [(w, h)]
  | (k, v) :: rest, w, h =>
    if w < k then (w, h) :: (k, v) :: rest
    else if w = k then (k, v) :: rest
    else (k, v) :: mapInsert rest w h

/-- `mPointerHandlers.erase(it)` where `it = find(w)`: removes the entry with
key `w` when present. -/
def mapErase : PointerHandlerMap → Nat → PointerHandlerMap
  | [], _ => []
  | (k, v) :: rest, w => if k = w then rest else (k, v) :: mapErase rest w

/-- Number of entries stored under key `w`. -/
def countKey (m : PointerHandlerMap) (w : Nat) : Nat :=
  (m.filter (fun p => p.1 == w)).length

/-- The mutable fields of `class PointerSystem`, plus the trace of messages
sent through `mMessageCallback` (the callback's effect is modelled as an
appended trace). -/
structure PSState where
  mDisplay : Option Unit
  mOpcode : Nat
  mPointerHandlers : PointerHandlerMap
  messages : List (MessageType × String)
  deriving DecidableEq, Repr

/-- `sendMessage(mMessageCallback, type, text)`. -/
def sendMessage (st : PSState) (t : MessageType) (text : String) : PSState :=
  { st with messages := st.messages ++ [(t, text)] }

/-- The constructor `PointerSystem(messageCallback)`: null display, opcode 0,
empty registry. -/
def newPointerSystem : PSState :=
  { mDisplay := none, mOpcode := 0, mPointerHandlers := [], messages := [] }

/-- Outcomes of the three Xlib calls `initialize()` makes, treated as an
oracle for the environment: whether `XOpenDisplay` returns non-null, whether
`XQueryExtension` succeeds (and the opcode it reports), and whether
`XIQueryVersion` returns something other than `BadRequest` (with the
major/minor it reports back). -/
structure X11World where
  openOk : Bool
  queryExtOk : Bool
  extOpcode : Nat
  versionOk : Bool
  versionMajor : Nat
  versionMinor : Nat
  deriving DecidableEq, Repr

/-- `PointerSystem::initialize()` (lines 37-70): open the display; on null
report an error and return `ERROR_API`; query the XInput extension, and on
failure report, close the display, null the handle and return `ERROR_API`;
query the version, with the same rollback on failure; otherwise `OK`. -/
def initializeSystem (w : X11World) (st : PSState) : PSState × Result :=
  let st := { st with mDisplay := if w.openOk then some () else none }
  if st.mDisplay = none then
    (sendMessage st MessageType.ERROR "Failed to open X11 display connection.",
     Result.ERROR_API)
  else
    if ¬ w.queryExtOk then
      let st := sendMessage st MessageType.ERROR "Failed to get the XInput extension."
      ({ st with mDisplay := none }, Result.ERROR_API)
    else
      let st := { st with mOpcode := w.extOpcode }
      if ¬ w.versionOk then
        let st := sendMessage st MessageType.ERROR
          ("Unsupported XInput extension version: expected 2.3+, actual " ++
            toString w.versionMajor ++ "." ++ toString w.versionMinor)
        ({ st with mDisplay := none }, Result.ERROR_API)
      else
        (st, Result.OK)

/-- `PointerSystem::createHandler(window, pointerCallback, handle)`
(lines 72-85).  `handlerInit` models `PointerHandler::initialize()` (that
class is not among the source files); it is applied to the registry as it
stands when the call `handler->initialize()` runs, i.e. after the insertion
on line 83.  The middle component models the out-parameter `*handle`
(`none` = never written). -/
def createHandler (handlerInit : Handler → PointerHandlerMap → Result)
    (st : PSState) (window : Nat) (cb : Nat) :
    PSState × Option Handler × Result :=
  match mapFind st.mPointerHandlers window with
  | some _ =>
    (sendMessage st MessageType.ERROR
      ("A handler has already been created for window " ++ toString window),
     none, Result.ERROR_DUPLICATE_ITEM)
  | none =>
    let handler : Handler := { window := window, cb := cb }
    let m := mapInsert st.mPointerHandlers window handler
    ({ st with mPointerHandlers := m }, some handler, handlerInit handler m)

/-- `PointerSystem::getHandler(window)` (lines 87-96): `find`, returning the
handler when present and `nullptr` (`none`) otherwise. -/
def getHandler (st : PSState) (window : Nat) : Option Handler :=
  mapFind st.mPointerHandlers window

/-- `PointerSystem::destroyHandler(handler)` (lines 98-108): erase the entry
found under `handler->getWindow()` when present, `delete handler` (the `Bool`
records that the handler was released), return `OK`. -/
def destroyHandler (st : PSState) (handler : Handler) : PSState × Bool × Result :=
  ({ st with mPointerHandlers := mapErase st.mPointerHandlers handler.window },
   true, Result.OK)

/-- `PointerSystem_Create(messageCallback, handle)` (lines 219-226): allocate
the system, write it to `*handle`, then return `initialize()`'s result.  The
first component models the caller's handle slot after the call (`none` =
never written); it holds the allocated object, whose state after the call is
the state `initialize` left it in. -/
def PointerSystem_Create (w : X11World) : Option PSState × Result :=
  let system := newPointerSystem
  let r := initializeSystem w system
  (some r.1, r.2)

/-- `GenericEvent` from `X.h`: the event type of all generic-extension
events. -/
def GenericEvent : Nat := 35

/-- The fields of a queued `XEvent` the drain loop reads: `e.type`, the
cookie's `extension`, and -- after the cast to `XIDeviceEvent*` -- the event
window `xiEvent->event`.  `serial` stands for `xany.serial`, used here only
to tell concrete events apart. -/
structure XEvent where
  eventType : Nat
  extension : Nat
  window : Nat
  serial : Nat
  deriving DecidableEq, Repr

/-- What one call to `processEventQueue` produced: how many events
`XNextEvent` consumed, which `(handler, event)` dispatches
`it->second->processEvent(xiEvent)` made, in order, and the messages sent
through the message sink. -/
structure DrainRes where
  consumed : Nat
  dispatched : List (Handler × XEvent)
  messages : List (MessageType × String)
  deriving DecidableEq, Repr

/-- Accumulator at the start of a `processEventQueue` call. -/
def drainInit : DrainRes :=
  { consumed := 0, dispatched := [], messages := [] }

/-- The loop of `PointerSystem::processEventQueue()` (lines 113-133):
`while (XEventsQueued(mDisplay, QueuedAlready)) { XNextEvent(...); ... }`.
The client-side event queue is the `List XEvent`; the loop guard re-reads
its length on every iteration and never blocks (it exits as soon as the
queue is empty).  `eff` models what the external `PointerHandler::
processEvent` call may enqueue into the client queue while it runs (the
source's handler code is outside the two source files); `fuel` bounds the
number of iterations, `none` meaning the bound was hit before the queue
emptied. -/
def drainLoop (m : PointerHandlerMap) (opcode : Nat)
    (eff : Handler → XEvent → List XEvent) :
    Nat → List XEvent → DrainRes → Option DrainRes
  | _, [], acc => some acc
  | 0, _ :: _, _ => none
  | fuel + 1, e :: rest, acc =>
    if e.eventType ≠ GenericEvent ∨ e.extension ≠ opcode then
      -- received a non xinput event
      drainLoop m opcode eff fuel rest { acc with consumed := acc.consumed + 1 }
    else
      match mapFind m e.window with
      | none =>
        drainLoop m opcode eff fuel rest
          { acc with consumed := acc.consumed + 1,
                     messages := acc.messages ++ [(MessageType.WARNING,
                       "Failed to retrieve handler for window " ++ toString e.window)] }
      | some h =>
        drainLoop m opcode eff fuel (rest ++ eff h e)
          { acc with consumed := acc.consumed + 1,
                     dispatched := acc.dispatched ++ [(h, e)] }

/-- `PointerSystem::processEventQueue()` (lines 110-136): run the drain loop
on the queued events, then `return Result::OK`. -/
def processEventQueue (m : PointerHandlerMap) (opcode : Nat)
    (eff : Handler → XEvent → List XEvent) (fuel : Nat) (queue : List XEvent) :
    Option (DrainRes × Result) :=
  (drainLoop m opcode eff fuel queue drainInit).map (fun r => (r, Result.OK))

/-- A handler whose `processEvent` enqueues nothing into the client queue. -/
def effNone : Handler → XEvent → List XEvent := fun _ _ => []

/-- An event is an XInput event for the drain loop when its type is
`GenericEvent` and its cookie's extension is the negotiated opcode. -/
def isXiEvent (opcode : Nat) (e : XEvent) : Prop :=
  e.eventType = GenericEvent ∧ e.extension = opcode

instance (opcode : Nat) (e : XEvent) : Decidable (isXiEvent opcode e) := by
  unfold isXiEvent; infer_instance

/-- The warning `processEventQueue` sends on a routing miss. -/
def warnMsg (e : XEvent) : MessageType × String :=
  (MessageType.WARNING, "Failed to retrieve handler for window " ++ toString e.window)

/-- Spec-side description of what one no-injection drain produces from a
queue: the XInput events with a registered handler are dispatched to it. -/
def expectedDispatches (m : PointerHandlerMap) (opcode : Nat)
    (queue : List XEvent) : List (Handler × XEvent) :=
  queue.filterMap (fun e =>
    if isXiEvent opcode e then (mapFind m e.window).map (fun h => (h, e)) else none)

/-- Spec-side description of the warnings: one per XInput event with no
registered handler, in queue order. -/
def expectedWarnings (m : PointerHandlerMap) (opcode : Nat)
    (queue : List XEvent) : List (MessageType × String) :=
  (queue.filter (fun e =>
    decide (isXiEvent opcode e) && (mapFind m e.window).isNone)).map warnMsg

/-- The window tree the recursive `getWindowsOfProcess` walks.  Each window
carries its `_NET_WM_PID` property (`none` models `XGetWindowProperty` not
returning a value: failure, or `propPID == 0`), and whether `XQueryTree`
succeeds on it (`queryOk`). -/
inductive WTree where
  | node (wid : Nat) (prop : Option Nat) (queryOk : Bool) (children : List WTree)

mutual
/-- `PointerSystem::getWindowsOfProcess(window, pid, atomPID, windows)`
(lines 172-215): read the window's PID property and push the window when it
equals `pid`; then, when `XQueryTree` succeeds, recurse into the children in
order.  `acc` is the `std::vector<Window>&` accumulator. -/
def getWindowsOfProcessRec (pid : Nat) : WTree → List Nat → List Nat
  | WTree.node wid prop queryOk children, acc =>
    let acc1 := if prop = some pid then acc ++ [wid] else acc
    if queryOk then getWindowsOfProcessChildren pid children acc1 else acc1

/-- The `for` loop over `childWindows` inside `getWindowsOfProcess`. -/
def getWindowsOfProcessChildren (pid : Nat) : List WTree → List Nat → List Nat
  | [], acc => acc
  | c :: cs, acc => getWindowsOfProcessChildren pid cs (getWindowsOfProcessRec pid c acc)
end

/-- `PointerSystem::getWindowsOfProcess(pid, windows, numWindows)`
(lines 138-158): reject a null `windows` out-pointer, otherwise walk the
tree from the default root window and return the copied array and its
length with `OK`. -/
def getWindowsOfProcess (root : WTree) (pid : Nat) (windowsIsNull : Bool) :
    Option (List Nat × Nat) × Result :=
  if windowsIsNull then
    (none, Result.ERROR_NULL_POINTER)
  else
    let result := getWindowsOfProcessRec pid root []
    (some (result, result.length), Result.OK)

mutual
/-- The windows the walk can reach, in visit (pre-)order, paired with their
PID property: a window itself is always visited, its children only when its
`XQueryTree` succeeds. -/
def reachablePreorder : WTree → List (Nat × Option Nat)
  | WTree.node wid prop queryOk children =>
    (wid, prop) :: (if queryOk then reachablePreorderChildren children else [])

/-- `reachablePreorder` over a child list. -/
def reachablePreorderChildren : List WTree → List (Nat × Option Nat)
  | [] => []
  | c :: cs => reachablePreorder c ++ reachablePreorderChildren cs
end

mutual
/-- Modelled from the spec: every window of the tree in pre-order with its
PID property, ignoring tree-query failures -- the claim's notion of "the
tree rooted at the default root window". -/
def allWindowsPreorder : WTree → List (Nat × Option Nat)
  | WTree.node wid prop _ children => (wid, prop) :: allWindowsPreorderChildren children

/-- `allWindowsPreorder` over a child list. -/
def allWindowsPreorderChildren : List WTree → List (Nat × Option Nat)
  | [] => []
  | c :: cs => allWindowsPreorder c ++ allWindowsPreorderChildren cs
end

/-- Modelled from the spec: "exactly the set of windows in the tree ...
whose process-id property is present and equals pid", in pre-order. -/
def allMatchingWindows (pid : Nat) (t : WTree) : List Nat :=
  ((allWindowsPreorder t).filter (fun p => p.2 == some pid)).map Prod.fst

/-- The matching windows among those the walk actually reaches. -/
def reachableMatchingWindows (pid : Nat) (t : WTree) : List Nat :=
  ((reachablePreorder t).filter (fun p => p.2 == some pid)).map Prod.fst

/-- `reachableMatchingWindows` over a child list. -/
def reachableMatchingChildren (pid : Nat) (cs : List WTree) : List Nat :=
  ((reachablePreorderChildren cs).filter (fun p => p.2 == some pid)).map Prod.fst

/-- Outcome of one `freeWindowsOfProcess` call against an allocator state:
the remaining live buffers, the returned `Result`, and whether the call ran
`delete[]` on a buffer that was not live (a double free / invalid free). -/
structure FreeRes where
  heap : List Nat
  result : Result
  doubleFree : Bool
  deriving DecidableEq, Repr

/-- `PointerSystem::freeWindowsOfProcess(windows)` (lines 160-170): reject a
null pointer with `ERROR_NULL_POINTER`; otherwise `delete[] windows` and
return `OK`.  The source keeps no record of what it allocated, so `heap`
(the ids of the live buffers, as the allocator sees them) is threaded
through explicitly; `delete[]` on a pointer not in it is the modelled
double free. -/
def freeWindowsOfProcess (heap : List Nat) (windows : Option Nat) : FreeRes :=
  match windows with
  | none => { heap := heap, result := Result.ERROR_NULL_POINTER, doubleFree := false }
  | some p =>
    { heap := heap.erase p, result := Result.OK, doubleFree := !(heap.contains p) }

/-! Concrete instances used to exercise the theorems below. -/

/-- A handler registered for window 1. -/
def h1 : Handler := { window := 1, cb := 0 }

/-- A registry holding only `h1`. -/
def m1 : PointerHandlerMap := [(1, h1)]

/-- An XInput event (type `GenericEvent`, extension 4) for window 1. -/
def ev0 : XEvent := { eventType := 35, extension := 4, window := 1, serial := 0 }

/-- A second XInput event for window 1. -/
def ev1 : XEvent := { eventType := 35, extension := 4, window := 1, serial := 1 }

/-- A third XInput event for window 1. -/
def ev2 : XEvent := { eventType := 35, extension := 4, window := 1, serial := 2 }

/-- A handler hook that enqueues `ev1` and `ev2` into the client queue while
processing the first event (serial 0), and nothing afterwards. -/
def effInject : Handler → XEvent → List XEvent :=
  fun _ e => if e.serial = 0 then [ev1, ev2] else []

/-- A `PointerHandler::initialize` that succeeds. -/
def initOK : Handler → PointerHandlerMap → Result := fun _ _ => Result.OK

/-- A `PointerHandler::initialize` that fails with `ERROR_API`. -/
def initFail : Handler → PointerHandlerMap → Result := fun _ _ => Result.ERROR_API

/-- A handler recorded for window 2. -/
def hdl2 : Handler := { window := 2, cb := 3 }

/-- A system state whose registry holds only `hdl2`. -/
def stWith2 : PSState :=
  { mDisplay := some (), mOpcode := 131, mPointerHandlers := [(2, hdl2)], messages := [] }

/-- A world where the display opens but the XInput extension is missing. -/
def worldExtFail : X11World :=
  { openOk := true, queryExtOk := false, extOpcode := 0,
    versionOk := true, versionMajor := 2, versionMinor := 3 }

/-- A world where all three bootstrap steps succeed. -/
def worldAllOk : X11World :=
  { openOk := true, queryExtOk := true, extOpcode := 131,
    versionOk := true, versionMajor := 2, versionMinor := 3 }

/-- A window tree whose root (id 0, no PID property) fails `XQueryTree`, with
one child (id 1) whose PID property is 7. -/
def tC2 : WTree := WTree.node 0 none false [WTree.node 1 (some 7) true []]

/-! ## Lemmas about the registry map -/

/-- Inserting under a key that `find` misses makes `find` hit the new entry. -/
theorem mapFind_mapInsert_self (m : PointerHandlerMap) (w : Nat) (h : Handler)
    (hnone : mapFind m w = none) : mapFind (mapInsert m w h) w = some h := by
  induction m with
  | nil => simp [mapInsert, mapFind]
  | cons p rest ih =>
    obtain ⟨k, v⟩ := p
    simp only [mapFind] at hnone
    by_cases hkw : k = w
    · simp [hkw] at hnone
    · rw [if_neg hkw] at hnone
      simp only [mapInsert]
      by_cases h1 : w < k
      · simp [mapFind, h1]
      · rw [if_neg h1]
        have h2 : ¬ w = k := fun hh => hkw hh.symm
        rw [if_neg h2]
        simp only [mapFind, if_neg hkw]
        exact ih hnone

/-- A key `find` misses has no entries at all. -/
theorem countKey_eq_zero (m : PointerHandlerMap) (w : Nat)
    (hnone : mapFind m w = none) : countKey m w = 0 := by
  induction m with
  | nil => simp [countKey]
  | cons p rest ih =>
    obtain ⟨k, v⟩ := p
    simp only [mapFind] at hnone
    by_cases hkw : k = w
    · simp [hkw] at hnone
    · rw [if_neg hkw] at hnone
      simpa [countKey, List.filter_cons, hkw] using ih hnone

/-- Inserting under a fresh key leaves exactly one entry for it. -/
theorem countKey_mapInsert_one (m : PointerHandlerMap) (w : Nat) (h : Handler)
    (hnone : mapFind m w = none) : countKey (mapInsert m w h) w = 1 := by
  induction m with
  | nil => simp [mapInsert, countKey, List.filter_cons]
  | cons p rest ih =>
    obtain ⟨k, v⟩ := p
    simp only [mapFind] at hnone
    by_cases hkw : k = w
    · simp [hkw] at hnone
    · rw [if_neg hkw] at hnone
      simp only [mapInsert]
      by_cases h1 : w < k
      · rw [if_pos h1]
        have hrest : mapFind ((k, v) :: rest) w = none := by
          simp [mapFind, hkw, hnone]
        simpa [countKey, List.filter_cons] using countKey_eq_zero _ _ hrest
      · rw [if_neg h1]
        have h2 : ¬ w = k := fun hh => hkw hh.symm
        rw [if_neg h2]
        simpa [countKey, List.filter_cons, hkw] using ih hnone

/-- Erasing a key `find` misses does nothing. -/
theorem mapErase_of_find_none (m : PointerHandlerMap) (w : Nat)
    (hnone : mapFind m w = none) : mapErase m w = m := by
  induction m with
  | nil => simp [mapErase]
  | cons p rest ih =>
    obtain ⟨k, v⟩ := p
    simp only [mapFind] at hnone
    by_cases hkw : k = w
    · simp [hkw] at hnone
    · rw [if_neg hkw] at hnone
      simp [mapErase, hkw, ih hnone]

/-- A key absent from the key list is missed by `find`. -/
theorem mapFind_not_mem (m : PointerHandlerMap) (w : Nat)
    (hmem : w ∉ m.map Prod.fst) : mapFind m w = none := by
  induction m with
  | nil => simp [mapFind]
  | cons p rest ih =>
    obtain ⟨k, v⟩ := p
    simp only [List.map_cons, List.mem_cons] at hmem
    push_neg at hmem
    have hkw : ¬ k = w := fun hh => hmem.1 hh.symm
    simp [mapFind, hkw, ih hmem.2]

/-- With unique keys, `find` misses an erased key. -/
theorem mapFind_mapErase_nodup (m : PointerHandlerMap) (w : Nat)
    (hnd : (m.map Prod.fst).Nodup) : mapFind (mapErase m w) w = none := by
  induction m with
  | nil => simp [mapErase, mapFind]
  | cons p rest ih =>
    obtain ⟨k, v⟩ := p
    simp only [List.map_cons, List.nodup_cons] at hnd
    by_cases hkw : k = w
    · subst hkw
      simp only [mapErase, if_pos rfl]
      exact mapFind_not_mem rest k hnd.1
    · simp only [mapErase, if_neg hkw, mapFind, if_neg hkw]
      exact ih hnd.2

/-! ## C3 -/

/-- C3: when opening the display succeeds but extension discovery or the
version check fails, `initialize` returns `ERROR_API` with the connection
closed and the handle reset to `none` (never half-open), and a subsequent
`initialize` on the same object succeeds cleanly whenever the world
cooperates. -/
theorem initializeSystem_rollback_on_failure (w : X11World) (st : PSState)
    (hopen : w.openOk = true) (hfail : w.queryExtOk = false ∨ w.versionOk = false) :
    (initializeSystem w st).2 = Result.ERROR_API ∧
    (initializeSystem w st).1.mDisplay = none ∧
    ∀ w2 : X11World, w2.openOk = true → w2.queryExtOk = true → w2.versionOk = true →
      (initializeSystem w2 (initializeSystem w st).1).2 = Result.OK ∧
      (initializeSystem w2 (initializeSystem w st).1).1.mDisplay = some () := by
  have hmain : (initializeSystem w st).2 = Result.ERROR_API ∧
      (initializeSystem w st).1.mDisplay = none := by
    rcases hfail with hext | hver
    · simp [initializeSystem, hopen, hext, sendMessage]
    · by_cases hext : w.queryExtOk <;>
        simp [initializeSystem, hopen, hext, hver, sendMessage]
  refine ⟨hmain.1, hmain.2, ?_⟩
  intro w2 h1 h2 h3
  simp [initializeSystem, h1, h2, h3]

/-- Witness for C3 at a concrete world: extension discovery fails, the call
returns `ERROR_API` with a closed handle, and a retry in a good world
returns `OK`. -/
theorem initializeSystem_rollback_on_failure_witness :
    (initializeSystem worldExtFail newPointerSystem).2 = Result.ERROR_API ∧
    (initializeSystem worldExtFail newPointerSystem).1.mDisplay = none ∧
    (initializeSystem worldAllOk (initializeSystem worldExtFail newPointerSystem).1).2 =
      Result.OK := by
  obtain ⟨a, b, c⟩ :=
    initializeSystem_rollback_on_failure worldExtFail newPointerSystem rfl (Or.inl rfl)
  exact ⟨a, b, (c worldAllOk rfl rfl rfl).1⟩

/-! ## C4 -/

/-- C4: `createHandler` on a window that already has an entry returns
`ERROR_DUPLICATE_ITEM`, leaves the registry exactly as it was and writes no
handle; two successive calls for the same window (the first one's handler
initialization succeeding) return `OK` then `ERROR_DUPLICATE_ITEM` and leave
exactly one entry for the window. -/
theorem createHandler_duplicate_rejected
    (handlerInit : Handler → PointerHandlerMap → Result) (st : PSState) (w cb : Nat) :
    ((mapFind st.mPointerHandlers w).isSome = true →
      (createHandler handlerInit st w cb).1.mPointerHandlers = st.mPointerHandlers ∧
      (createHandler handlerInit st w cb).2.1 = none ∧
      (createHandler handlerInit st w cb).2.2 = Result.ERROR_DUPLICATE_ITEM) ∧
    (mapFind st.mPointerHandlers w = none →
      handlerInit { window := w, cb := cb }
        (mapInsert st.mPointerHandlers w { window := w, cb := cb }) = Result.OK →
      (createHandler handlerInit st w cb).2.2 = Result.OK ∧
      (createHandler handlerInit (createHandler handlerInit st w cb).1 w cb).2.2 =
        Result.ERROR_DUPLICATE_ITEM ∧
      countKey (createHandler handlerInit
        (createHandler handlerInit st w cb).1 w cb).1.mPointerHandlers w = 1) := by
  constructor
  · intro hdup
    cases hfind : mapFind st.mPointerHandlers w with
    | none => rw [hfind] at hdup; simp at hdup
    | some h0 => simp [createHandler, hfind, sendMessage]
  · intro hfind hinit
    have hsecond : mapFind (mapInsert st.mPointerHandlers w { window := w, cb := cb }) w =
        some { window := w, cb := cb } :=
      mapFind_mapInsert_self _ _ _ hfind
    refine ⟨?_, ?_, ?_⟩
    · simp [createHandler, hfind, hinit]
    · simp [createHandler, hfind, hsecond, sendMessage]
    · simp only [createHandler, hfind]
      simp only [hsecond]
      simpa [sendMessage] using countKey_mapInsert_one _ _ _ hfind

/-- Witness for C4 at a concrete registry: create for window 2 returns `OK`,
a second create returns `ERROR_DUPLICATE_ITEM`, one entry remains. -/
theorem createHandler_duplicate_rejected_witness :
    (createHandler initOK newPointerSystem 2 3).2.2 = Result.OK ∧
    (createHandler initOK (createHandler initOK newPointerSystem 2 3).1 2 3).2.2 =
      Result.ERROR_DUPLICATE_ITEM ∧
    countKey (createHandler initOK
      (createHandler initOK newPointerSystem 2 3).1 2 3).1.mPointerHandlers 2 = 1 :=
  (createHandler_duplicate_rejected initOK newPointerSystem 2 3).2 rfl rfl

/-! ## C8 -/

/-- C8: a non-duplicate `createHandler` inserts the entry into the registry
and only then runs the handler's initialization (which therefore observes
the post-insert registry), returns exactly the initialization's result, and
the entry is in the registry whatever that result is. -/
theorem createHandler_insert_before_init
    (handlerInit : Handler → PointerHandlerMap → Result) (st : PSState) (w cb : Nat)
    (hfind : mapFind st.mPointerHandlers w = none) :
    createHandler handlerInit st w cb =
      ({ st with mPointerHandlers :=
          mapInsert st.mPointerHandlers w { window := w, cb := cb } },
       some { window := w, cb := cb },
       handlerInit { window := w, cb := cb }
         (mapInsert st.mPointerHandlers w { window := w, cb := cb })) ∧
    getHandler (createHandler handlerInit st w cb).1 w = some { window := w, cb := cb } := by
  have h1 : createHandler handlerInit st w cb =
      ({ st with mPointerHandlers :=
          mapInsert st.mPointerHandlers w { window := w, cb := cb } },
       some { window := w, cb := cb },
       handlerInit { window := w, cb := cb }
         (mapInsert st.mPointerHandlers w { window := w, cb := cb })) := by
    simp [createHandler, hfind]
  refine ⟨h1, ?_⟩
  rw [h1]
  simpa [getHandler] using mapFind_mapInsert_self _ _ _ hfind

/-- Witness for C8 at a concrete input whose handler initialization fails:
the entry for window 2 is still in the registry afterwards. -/
theorem createHandler_insert_before_init_witness :
    getHandler (createHandler initFail newPointerSystem 2 3).1 2 =
      some { window := 2, cb := 3 } :=
  (createHandler_insert_before_init initFail newPointerSystem 2 3 rfl).2

/-! ## C9 -/

/-- C9: `destroyHandler` erases the entry under the handler's recorded
window when one exists (with unique keys, `getHandler` then misses), leaves
the registry untouched when the handler is already detached (no entry under
its window), releases the handler in either case, and returns `OK`. -/
theorem destroyHandler_erases_and_returns_OK (st : PSState) (h : Handler) :
    destroyHandler st h =
      ({ st with mPointerHandlers := mapErase st.mPointerHandlers h.window },
       true, Result.OK) ∧
    ((st.mPointerHandlers.map Prod.fst).Nodup →
      getHandler (destroyHandler st h).1 h.window = none) ∧
    (mapFind st.mPointerHandlers h.window = none →
      (destroyHandler st h).1.mPointerHandlers = st.mPointerHandlers) := by
  refine ⟨rfl, ?_, ?_⟩
  · intro hnd
    simpa [destroyHandler, getHandler] using mapFind_mapErase_nodup _ h.window hnd
  · intro hnone
    simpa [destroyHandler] using mapErase_of_find_none _ h.window hnone

/-- Witness for C9 at concrete inputs: destroying the handler for window 2
makes `getHandler 2` miss, and destroying it against an empty registry
leaves the registry unchanged. -/
theorem destroyHandler_erases_and_returns_OK_witness :
    getHandler (destroyHandler stWith2 hdl2).1 2 = none ∧
    (destroyHandler newPointerSystem hdl2).1.mPointerHandlers =
      newPointerSystem.mPointerHandlers := by
  refine ⟨?_, ?_⟩
  · exact (destroyHandler_erases_and_returns_OK stWith2 hdl2).2.1 (by decide)
  · exact (destroyHandler_erases_and_returns_OK newPointerSystem hdl2).2.2 rfl

/-! ## C10 -/

/-- C10: `PointerSystem_Create` writes the allocated system to the caller's
handle slot before running `initialize`, so the slot holds the object (in
the state `initialize` left it in) even when the returned result is
`ERROR_API`; the returned result is exactly `initialize`'s. -/
theorem PointerSystem_Create_handle_written (w : X11World) :
    (PointerSystem_Create w).1 = some (initializeSystem w newPointerSystem).1 ∧
    (PointerSystem_Create w).2 = (initializeSystem w newPointerSystem).2 ∧
    (PointerSystem_Create w).1.isSome = true :=
  ⟨rfl, rfl, rfl⟩

/-! ## Lemmas about the drain loop -/

/-- The loop's skip test is the complement of `isXiEvent`. -/
theorem skip_iff_not_xi (opcode : Nat) (e : XEvent) :
    (e.eventType ≠ GenericEvent ∨ e.extension ≠ opcode) ↔ ¬ isXiEvent opcode e := by
  unfold isXiEvent
  tauto

/-- `expectedDispatches` ignores a non-XInput event. -/
theorem expectedDispatches_cons_skip (m : PointerHandlerMap) (op : Nat)
    (e : XEvent) (rest : List XEvent) (hx : ¬ isXiEvent op e) :
    expectedDispatches m op (e :: rest) = expectedDispatches m op rest := by
  simp [expectedDispatches, List.filterMap_cons, hx]

/-- `expectedDispatches` ignores an event with no registered handler. -/
theorem expectedDispatches_cons_miss (m : PointerHandlerMap) (op : Nat)
    (e : XEvent) (rest : List XEvent) (hfind : mapFind m e.window = none) :
    expectedDispatches m op (e :: rest) = expectedDispatches m op rest := by
  simp [expectedDispatches, List.filterMap_cons, hfind]

/-- `expectedDispatches` records a routed XInput event. -/
theorem expectedDispatches_cons_hit (m : PointerHandlerMap) (op : Nat)
    (e : XEvent) (rest : List XEvent) (h : Handler)
    (hx : isXiEvent op e) (hfind : mapFind m e.window = some h) :
    expectedDispatches m op (e :: rest) = (h, e) :: expectedDispatches m op rest := by
  simp [expectedDispatches, List.filterMap_cons, hx, hfind]

/-- `expectedWarnings` ignores a non-XInput event. -/
theorem expectedWarnings_cons_skip (m : PointerHandlerMap) (op : Nat)
    (e : XEvent) (rest : List XEvent) (hx : ¬ isXiEvent op e) :
    expectedWarnings m op (e :: rest) = expectedWarnings m op rest := by
  simp [expectedWarnings, List.filter_cons, hx]

/-- `expectedWarnings` ignores a routed event. -/
theorem expectedWarnings_cons_hit (m : PointerHandlerMap) (op : Nat)
    (e : XEvent) (rest : List XEvent) (h : Handler)
    (hfind : mapFind m e.window = some h) :
    expectedWarnings m op (e :: rest) = expectedWarnings m op rest := by
  simp [expectedWarnings, List.filter_cons, hfind]

/-- `expectedWarnings` records one warning for an XInput event with no
registered handler. -/
theorem expectedWarnings_cons_miss (m : PointerHandlerMap) (op : Nat)
    (e : XEvent) (rest : List XEvent)
    (hx : isXiEvent op e) (hfind : mapFind m e.window = none) :
    expectedWarnings m op (e :: rest) = warnMsg e :: expectedWarnings m op rest := by
  simp [expectedWarnings, List.filter_cons, hx, hfind]

/-- Master characterization of the drain loop when the handlers enqueue
nothing: with fuel equal to the queue length, the loop terminates (it never
blocks), consumes exactly the queued events, dispatches exactly the XInput
events with a registered handler and warns once per XInput event without
one. -/
theorem drainLoop_effNone_eq (m : PointerHandlerMap) (op : Nat) :
    ∀ (q : List XEvent) (acc : DrainRes),
      drainLoop m op effNone q.length q acc =
        some { consumed := acc.consumed + q.length,
               dispatched := acc.dispatched ++ expectedDispatches m op q,
               messages := acc.messages ++ expectedWarnings m op q } := by
  intro q
  induction q with
  | nil =>
    intro acc
    simp [drainLoop, expectedDispatches, expectedWarnings]
  | cons e rest ih =>
    intro acc
    have hlen : (e :: rest).length = rest.length + 1 := rfl
    rw [hlen]
    by_cases hx : isXiEvent op e
    · have hcond : ¬ (e.eventType ≠ GenericEvent ∨ e.extension ≠ op) :=
        fun hc => (skip_iff_not_xi op e).mp hc hx
      simp only [drainLoop, if_neg hcond]
      cases hfind : mapFind m e.window with
      | none =>
        rw [ih]
        rw [expectedDispatches_cons_miss m op e rest hfind,
          expectedWarnings_cons_miss m op e rest hx hfind]
        simp only [Option.some.injEq, DrainRes.mk.injEq]
        refine ⟨by omega, by simp, by simp [warnMsg]⟩
      | some hdl =>
        have heff : rest ++ effNone hdl e = rest := by simp [effNone]
        show drainLoop m op effNone rest.length (rest ++ effNone hdl e)
            { consumed := acc.consumed + 1,
              dispatched := acc.dispatched ++ [(hdl, e)],
              messages := acc.messages } = _
        rw [heff, ih]
        rw [expectedDispatches_cons_hit m op e rest hdl hx hfind,
          expectedWarnings_cons_hit m op e rest hdl hfind]
        simp only [Option.some.injEq, DrainRes.mk.injEq]
        refine ⟨by omega, by simp, by simp⟩
    · have hcond : e.eventType ≠ GenericEvent ∨ e.extension ≠ op :=
        (skip_iff_not_xi op e).mpr hx
      simp only [drainLoop, if_pos hcond]
      rw [ih]
      rw [expectedDispatches_cons_skip m op e rest hx,
        expectedWarnings_cons_skip m op e rest hx]
      simp only [Option.some.injEq, DrainRes.mk.injEq]
      refine ⟨by omega, by simp, by simp⟩

/-- Every dispatch the loop makes, beyond those already accumulated, is of
an XInput event (any injection behaviour, any fuel). -/
theorem drainLoop_dispatch_mem (m : PointerHandlerMap) (op : Nat)
    (eff : Handler → XEvent → List XEvent) :
    ∀ (fuel : Nat) (q : List XEvent) (acc r : DrainRes),
      drainLoop m op eff fuel q acc = some r →
      ∀ p ∈ r.dispatched, p ∈ acc.dispatched ∨ isXiEvent op p.2 := by
  intro fuel
  induction fuel with
  | zero =>
    intro q acc r hrun p hp
    cases q with
    | nil =>
      simp only [drainLoop, Option.some.injEq] at hrun
      subst hrun
      exact Or.inl hp
    | cons e rest => simp [drainLoop] at hrun
  | succ n ih =>
    intro q acc r hrun p hp
    cases q with
    | nil =>
      simp only [drainLoop, Option.some.injEq] at hrun
      subst hrun
      exact Or.inl hp
    | cons e rest =>
      by_cases hcond : e.eventType ≠ GenericEvent ∨ e.extension ≠ op
      · simp only [drainLoop, if_pos hcond] at hrun
        exact ih rest _ r hrun p hp
      · simp only [drainLoop, if_neg hcond] at hrun
        have hx : isXiEvent op e := by
          by_contra hnx
          exact hcond ((skip_iff_not_xi op e).mpr hnx)
        cases hfind : mapFind m e.window with
        | none =>
          rw [hfind] at hrun
          exact ih rest _ r hrun p hp
        | some hdl =>
          rw [hfind] at hrun
          rcases ih _ _ r hrun p hp with hmem | hxi
          · rcases List.mem_append.mp hmem with hold | hnew
            · exact Or.inl hold
            · right
              have hpe : p = (hdl, e) := by simpa using hnew
              rw [hpe]
              exact hx
          · exact Or.inr hxi

/-! ## C1 -/

/-- Counterexample to C1 as stated: with N = 1 event queued at entry and
M = 2 events enqueued into the client queue while the call runs (by the
handler hook processing the first event), `processEventQueue` consumes and
dispatches 3 events, not exactly N = 1 -- the loop guard re-reads the queue
each iteration instead of snapshotting a count at entry. -/
theorem processEventQueue_snapshot_counterexample :
    processEventQueue m1 4 effInject 10 [ev0] =
      some ({ consumed := 3,
              dispatched := [(h1, ev0), (h1, ev1), (h1, ev2)],
              messages := [] }, Result.OK) ∧
    ([ev0] : List XEvent).length = 1 ∧ 1 < 3 :=
  ⟨by decide, rfl, by decide⟩

/-- C1 (amended): `processEventQueue` drains the client-side queue until it
is empty, taking a fresh non-blocking count each iteration rather than a
snapshot at entry: with no events enqueued during the call it consumes
exactly the N events queued at entry and terminates (never blocks), while
events enqueued into the client queue during the call are consumed too. -/
theorem processEventQueue_drains_all_queued (m : PointerHandlerMap) (op : Nat)
    (q : List XEvent) :
    ∃ r : DrainRes,
      processEventQueue m op effNone q.length q = some (r, Result.OK) ∧
      r.consumed = q.length := by
  refine ⟨{ consumed := q.length,
            dispatched := expectedDispatches m op q,
            messages := expectedWarnings m op q }, ?_, rfl⟩
  unfold processEventQueue
  rw [drainLoop_effNone_eq]
  simp [drainInit]

/-! ## C5 -/

/-- C5: an event whose type is not `GenericEvent`, or whose extension is not
the negotiated opcode, is never forwarded to any handler: every dispatch
`processEventQueue` makes is of an event with the generic type and the
negotiated opcode -- for any queue, any injection behaviour and any fuel. -/
theorem processEventQueue_dispatch_only_xi (m : PointerHandlerMap) (op : Nat)
    (eff : Handler → XEvent → List XEvent) (fuel : Nat) (q : List XEvent)
    (r : DrainRes) (res : Result) (p : Handler × XEvent)
    (hrun : processEventQueue m op eff fuel q = some (r, res))
    (hp : p ∈ r.dispatched) :
    isXiEvent op p.2 := by
  have hdrain : drainLoop m op eff fuel q drainInit = some r := by
    unfold processEventQueue at hrun
    cases hd : drainLoop m op eff fuel q drainInit with
    | none => rw [hd] at hrun; simp at hrun
    | some r0 =>
      rw [hd] at hrun
      simp at hrun
      rw [hrun.1]
  rcases drainLoop_dispatch_mem m op eff fuel q drainInit r hdrain p hp with hmem | hxi
  · simp [drainInit] at hmem
  · exact hxi

/-- Witness for C5 at a concrete run: the one dispatched event is a
`GenericEvent` carrying opcode 4. -/
theorem processEventQueue_dispatch_only_xi_witness : isXiEvent 4 ev0 :=
  processEventQueue_dispatch_only_xi m1 4 effNone 1 [ev0]
    { consumed := 1, dispatched := [(h1, ev0)], messages := [] } Result.OK (h1, ev0)
    (by decide) (by decide)

/-! ## C6 -/

/-- C6: for every queue, a drained XInput event targeting a window with no
registered handler produces exactly one warning through the message sink
(`expectedWarnings` holds one `warnMsg` per such event, in order), the loop
continues past it and consumes the whole queue, and the call returns `OK`;
`processEventQueue` returns `OK` on every terminating invocation. -/
theorem processEventQueue_warns_once_and_returns_OK (m : PointerHandlerMap)
    (op : Nat) (q : List XEvent) :
    processEventQueue m op effNone q.length q =
      some ({ consumed := q.length,
              dispatched := expectedDispatches m op q,
              messages := expectedWarnings m op q }, Result.OK) := by
  unfold processEventQueue
  rw [drainLoop_effNone_eq]
  simp [drainInit]

/-! ## Lemmas about the window-tree walk -/

mutual
/-- The recursive walk appends, to its accumulator, exactly the matching
windows among the windows it can reach, in visit order. -/
theorem getWindowsOfProcessRec_eq (pid : Nat) :
    ∀ (t : WTree) (acc : List Nat),
      getWindowsOfProcessRec pid t acc = acc ++ reachableMatchingWindows pid t
  | WTree.node wid prop qok cs, acc => by
    cases qok with
    | true =>
      by_cases hm : prop = some pid
      · simp only [getWindowsOfProcessRec, hm, if_pos, if_true]
        rw [getWindowsOfProcessChildren_eq pid cs]
        simp [reachableMatchingWindows, reachablePreorder, reachableMatchingChildren,
          List.filter_cons, hm, List.append_assoc]
      · simp only [getWindowsOfProcessRec, hm, if_neg, if_true]
        rw [getWindowsOfProcessChildren_eq pid cs]
        simp [reachableMatchingWindows, reachablePreorder, reachableMatchingChildren,
          List.filter_cons, hm]
    | false =>
      by_cases hm : prop = some pid <;>
        simp [getWindowsOfProcessRec, reachableMatchingWindows, reachablePreorder,
          hm, List.filter_cons]

/-- The child loop appends each child's contribution in order. -/
theorem getWindowsOfProcessChildren_eq (pid : Nat) :
    ∀ (cs : List WTree) (acc : List Nat),
      getWindowsOfProcessChildren pid cs acc = acc ++ reachableMatchingChildren pid cs
  | [], acc => by
    simp [getWindowsOfProcessChildren, reachableMatchingChildren, reachablePreorderChildren]
  | c :: cs, acc => by
    rw [getWindowsOfProcessChildren, getWindowsOfProcessChildren_eq pid cs,
      getWindowsOfProcessRec_eq pid c]
    simp [reachableMatchingChildren, reachablePreorderChildren, reachableMatchingWindows,
      List.filter_append, List.append_assoc]
end

/-! ## C2 -/

/-- Counterexample to C2 as stated: in `tC2` the root's tree query fails, so
its child (window 1, PID property 7) is never visited: the walk returns `[]`
while the set of windows in the tree whose PID property is present and
equals 7 is `{1}` -- window 1 is in that set but not in the result. -/
theorem getWindowsOfProcess_pruned_counterexample :
    getWindowsOfProcessRec 7 tC2 [] = [] ∧
    allMatchingWindows 7 tC2 = [1] ∧
    (1 : Nat) ∈ allMatchingWindows 7 tC2 ∧
    (1 : Nat) ∉ getWindowsOfProcessRec 7 tC2 [] := by decide

/-- C2 (amended): `getWindowsOfProcess` returns exactly the windows whose
PID property is present and equals `pid` among the windows the walk can
reach -- children are visited only when their parent's tree query succeeds,
while a window whose own tree query fails still contributes itself -- in
pre-order, with no duplicates when the reachable window ids are distinct;
a window whose property is absent contributes no match and does not abort
the walk elsewhere. -/
theorem getWindowsOfProcess_matches_reachable_preorder (pid : Nat) (t : WTree) :
    getWindowsOfProcessRec pid t [] = reachableMatchingWindows pid t ∧
    (((reachablePreorder t).map Prod.fst).Nodup →
      (getWindowsOfProcessRec pid t []).Nodup) := by
  have h : getWindowsOfProcessRec pid t [] = reachableMatchingWindows pid t := by
    simpa using getWindowsOfProcessRec_eq pid t []
  refine ⟨h, ?_⟩
  intro hnd
  rw [h]
  unfold reachableMatchingWindows
  have hsub : List.Sublist
      (((reachablePreorder t).filter (fun p => p.2 == some pid)).map Prod.fst)
      ((reachablePreorder t).map Prod.fst) :=
    List.Sublist.map Prod.fst (List.filter_sublist _)
  exact List.Nodup.sublist hsub hnd

/-- Witness for C2 (amended) on the concrete pruned tree: the equality holds
and the result has no duplicates. -/
theorem getWindowsOfProcess_matches_reachable_preorder_witness :
    getWindowsOfProcessRec 7 tC2 [] = reachableMatchingWindows 7 tC2 ∧
    (getWindowsOfProcessRec 7 tC2 []).Nodup := by
  obtain ⟨a, b⟩ := getWindowsOfProcess_matches_reachable_preorder 7 tC2
  exact ⟨a, b (by decide)⟩

/-! ## C7 -/

/-- Counterexample to C7 as stated: freeing the one live buffer and then
freeing the same pointer again is not rejected or flagged -- the second call
also returns `OK` while running `delete[]` on a buffer that is no longer
live (a double free). -/
theorem freeWindowsOfProcess_double_free_counterexample :
    (freeWindowsOfProcess [5] (some 5)).result = Result.OK ∧
    (freeWindowsOfProcess (freeWindowsOfProcess [5] (some 5)).heap (some 5)).result =
      Result.OK ∧
    (freeWindowsOfProcess (freeWindowsOfProcess [5] (some 5)).heap (some 5)).doubleFree =
      true := by decide

/-- C7 (amended): a null pointer is rejected with `ERROR_NULL_POINTER` (not
treated as a no-op), but a second free of the same non-null array is not
detected: the source keeps no allocation record, so the call runs `delete[]`
again -- a double free -- and returns `OK`. -/
theorem freeWindowsOfProcess_null_rejected_refree_unflagged
    (heap : List Nat) (p : Nat) :
    freeWindowsOfProcess heap none =
      { heap := heap, result := Result.ERROR_NULL_POINTER, doubleFree := false } ∧
    (freeWindowsOfProcess heap (some p)).result = Result.OK ∧
    (freeWindowsOfProcess heap (some p)).doubleFree = !(heap.contains p) ∧
    (freeWindowsOfProcess ((freeWindowsOfProcess [p] (some p)).heap) (some p)).result =
      Result.OK ∧
    (freeWindowsOfProcess ((freeWindowsOfProcess [p] (some p)).heap) (some p)).doubleFree =
      true := by
  refine ⟨rfl, rfl, rfl, rfl, ?_⟩
  simp [freeWindowsOfProcess, List.erase_cons_head]
